import Mathlib

/-!
Shallow embedding of the client-side form handling of the
`sistema-inventario` repository: the login page script (in its demo
variant and in its API-connected variant) and the admin create-user
page script (`FrontEnd/js/admin_users.js`).

JavaScript strings are modelled as Lean `String` values (sequences of
code points), DOM state as explicit records, thrown exceptions as an
explicit field, and each event handler as a pure function from its
inputs and the network outcome to the resulting state together with a
trace of the observable events it performs.
-/

/-- The character class `\s` of JavaScript regular expressions:
ECMAScript WhiteSpace together with LineTerminator
(space, tab, LF, VT, FF, CR, NBSP, and the Unicode space separators). -/
def isJsSpace (c : Char) : Bool :=
  c = ' ' || c = '\t' || c = '\n' || c.val = 11 || c.val = 12 || c = '\r' ||
    c.val = 0xa0 || c.val = 0x1680 || (0x2000 ≤ c.val && c.val ≤ 0x200a) ||
    c.val = 0x2028 || c.val = 0x2029 || c.val = 0x202f || c.val = 0x205f ||
    c.val = 0x3000 || c.val = 0xfeff

/-- JavaScript `String.prototype.trim`: strip WhiteSpace and
LineTerminator code points from both ends. -/
def jsTrim (s : String) : String :=
  String.mk (((s.data.dropWhile isJsSpace).reverse.dropWhile isJsSpace).reverse)

/-- JavaScript `String.prototype.toLowerCase`, modelled with Lean's
per-character lowercasing. -/
def jsToLower (s : String) : String :=
  String.mk (s.data.map Char.toLower)

/-- Truthiness of a JavaScript string: the empty string is falsy. -/
def jsTruthy (s : String) : Bool := !s.isEmpty

/-- The idiom `x || fallback` applied to a possibly-undefined,
possibly-empty string (`undefined` is modelled as `none`). -/
def jsOrElse (x : Option String) (fallback : String) : String :=
  match x with
  | some s => if s.isEmpty then fallback else s
  | none => fallback

/-- Template interpolation of a possibly-undefined string value:
JavaScript renders `undefined` as the text "undefined". -/
def jsShow (x : Option String) : String :=
  match x with
  | some s => s
  | none => "undefined"

/-- The character class `[^\s@]` of the email regular expression. -/
def emailAtom (c : Char) : Bool := !(isJsSpace c) && !(c = '@')

/-- All decompositions of a list into a prefix and a suffix. -/
def stringSplits (l : List Char) : List (List Char × List Char) :=
  (List.range (l.length + 1)).map fun i => (l.take i, l.drop i)

/-- Does the list start with the given character? -/
def headIs (ch : Char) (l : List Char) : Bool :=
  match l with
  | c :: _ => c = ch
  | [] => false

/-- Matcher for `[^\s@]+\.[^\s@]+` against a whole list (the part of
the email regular expression after the `@`): some split point puts a
nonempty atom run before a literal dot and a nonempty atom run after. -/
def matchDotTail (l : List Char) : Bool :=
  (stringSplits l).any fun p =>
    !p.1.isEmpty && p.1.all emailAtom && headIs '.' p.2 &&
      !p.2.tail.isEmpty && p.2.tail.all emailAtom

/-- `isValidEmail` as defined identically in all three scripts:
`return /^[^\s@]+@[^\s@]+\.[^\s@]+$/.test(value);`.
A full-string regular-expression match is the existence of a
decomposition into the pattern's pieces, realised here as a search
over all split points. -/
def isValidEmail (value : String) : Bool :=
  (stringSplits value.data).any fun p =>
    !p.1.isEmpty && p.1.all emailAtom && headIs '@' p.2 &&
      matchDotTail p.2.tail

/-- Declarative reading of the language of `^[^\s@]+@[^\s@]+\.[^\s@]+$`,
written from the specification's regular expression for comparison
with the executable matcher. -/
def EmailMatches (s : String) : Prop :=
  ∃ a b c, s.data = a ++ '@' :: (b ++ '.' :: c) ∧
    a ≠ [] ∧ b ≠ [] ∧ c ≠ [] ∧
    (∀ x ∈ a, emailAtom x = true) ∧ (∀ x ∈ b, emailAtom x = true) ∧
    (∀ x ∈ c, emailAtom x = true)

/-- A user object as delivered by the API or held in the stored
session; fields may be absent (modelled as `none`). -/
structure JsUser where
  name : Option String
  email : Option String
  role : Option String
deriving DecidableEq

/-- The session object persisted under the "session" local-storage
key: the token and user from the response body plus the state of the
remember-me checkbox. -/
structure StoredSession where
  token : Option String
  user : Option JsUser
  remember : Bool
deriving DecidableEq

/-- Truthiness of a possibly-undefined string: `undefined` and the
empty string are falsy. -/
def jsTruthyOpt (x : Option String) : Bool :=
  match x with
  | some s => !s.isEmpty
  | none => false

/-- `Response.ok`: the HTTP status is in the range 200 to 299. -/
def httpOk (status : Nat) : Bool := 200 ≤ status && status ≤ 299

/-- Message carried by the TypeError raised by a property access on
null (the engine's text is abstracted to a fixed string). -/
def nullAccessMsg : String := "Cannot read properties of null"

/-- Message carried by the SyntaxError raised by `res.json()` on a
body that is not parsable JSON. -/
def jsonSyntaxErrMsg : String := "Unexpected end of JSON input"

/-- Message carried by the TypeError with which `fetch` rejects on a
network error. -/
def fetchRejectMsg : String := "Failed to fetch"

/-- Observable UI and network events of one submission, in program
order.  A request event records the URL, the method, the Authorization
header if any, and the fields of the JSON body. -/
inductive Ev where
  | setLoading (isOn : Bool)
  | request (url : String) (method : String) (auth : Option String)
      (body : List (String × String))
  | settled
deriving DecidableEq

/-- DOM state touched by the login page script (both variants declare
the same elements and helpers). -/
structure LoginDom where
  emailError : String
  passError : String
  formMsgText : String
  formMsgVisible : Bool
  formMsgOk : Bool
  btnDisabled : Bool
  btnText : String
deriving DecidableEq

namespace Login

/-- `setLoading(isLoading)` of the login script. -/
def setLoading (d : LoginDom) (isLoading : Bool) : LoginDom :=
  { d with btnDisabled := isLoading,
           btnText := if isLoading then "Ingresando..." else "Entrar" }

/-- `clearErrors()` of the login script. -/
def clearErrors (d : LoginDom) : LoginDom :=
  { d with emailError := "", passError := "",
           formMsgVisible := false, formMsgText := "", formMsgOk := false }

/-- Parsed JSON body of a login response. -/
structure LoginData where
  detail : Option String
  token : Option String
  user : Option JsUser
deriving DecidableEq

/-- The body of a login response: a JSON object, the JSON literal
null, or text that is not parsable JSON. -/
inductive LoginBody where
  | obj (d : LoginData)
  | jnull
  | unparsable
deriving DecidableEq

/-- Outcome of the login fetch: a response with an HTTP status and a
body, or a rejected promise (network error). -/
inductive LoginFetch where
  | respond (status : Nat) (body : LoginBody)
  | reject
deriving DecidableEq

/-- Result of one login submission: final DOM state, the value stored
under the "session" key, the scheduled navigation target if any, and
the trace of observable events. -/
structure LoginResult where
  dom : LoginDom
  storage : Option StoredSession
  redirect : Option String
  events : List Ev
deriving DecidableEq

/-- The submit listener of the API-connected login script: validate,
POST to /auth/login inside try/catch/finally, store the session and
schedule the dashboard redirect on success, show the error message on
failure, and clear the loading state in the finally block. -/
def formSubmit (dom0 : LoginDom) (storage0 : Option StoredSession)
    (emailV passV : String) (rememberChecked : Bool) (f : LoginFetch) :
    LoginResult :=
  let d := clearErrors dom0
  let eVal := jsTrim emailV
  let pVal := passV
  let emailBad := !(isValidEmail eVal)
  let passBad := !(jsTruthy pVal) || pVal.length < 6
  let d := { d with
    emailError := if emailBad then "Ingresa un email válido." else d.emailError,
    passError := if passBad then
      "La contraseña debe tener al menos 6 caracteres." else d.passError }
  if emailBad || passBad then
    { dom := d, storage := storage0, redirect := none, events := [] }
  else
    let d := setLoading d true
    let evs := [Ev.setLoading true,
      Ev.request "http://localhost:3000/auth/login" "POST" none
        [("email", eVal), ("password", pVal)],
      Ev.settled]
    let tryOutcome : Except String (LoginDom × Option StoredSession × Option String) :=
      match f with
      | LoginFetch.reject => Except.error fetchRejectMsg
      | LoginFetch.respond status body =>
        match body with
        | LoginBody.unparsable =>
          -- res.json() throws a SyntaxError
          Except.error jsonSyntaxErrMsg
        | LoginBody.jnull =>
          if !(httpOk status) then
            -- data.detail on null throws a TypeError
            Except.error nullAccessMsg
          else
            -- data.token on null throws a TypeError
            Except.error nullAccessMsg
        | LoginBody.obj data =>
          if !(httpOk status) then
            Except.error (jsOrElse data.detail "Email o contraseña incorrectos.")
          else
            let sess : StoredSession :=
              { token := data.token, user := data.user, remember := rememberChecked }
            let d2 := { d with formMsgText := "¡Login correcto! Redirigiendo…",
                               formMsgOk := true, formMsgVisible := true }
            Except.ok (d2, some sess, some "./dashboard.html")
    match tryOutcome with
    | Except.ok (d2, st, rd) =>
      { dom := setLoading d2 false, storage := st, redirect := rd,
        events := evs ++ [Ev.setLoading false] }
    | Except.error emsg =>
      let d2 := { d with
        formMsgText := jsOrElse (some emsg) "No se pudo iniciar sesión.",
        formMsgVisible := true }
      { dom := setLoading d2 false, storage := storage0, redirect := none,
        events := evs ++ [Ev.setLoading false] }

end Login

namespace DemoLogin

/-- The submit listener of the simulated login script: validate, wait,
compare against the hard-coded demo credentials, store the demo
session and schedule the dashboard redirect on a match, show the error
message otherwise, and clear the loading state in the finally block.
No network request is made. -/
def formSubmit (dom0 : LoginDom) (storage0 : Option StoredSession)
    (emailV passV : String) (rememberChecked : Bool) : Login.LoginResult :=
  let d := Login.clearErrors dom0
  let eVal := jsTrim emailV
  let pVal := passV
  let emailBad := !(isValidEmail eVal)
  let passBad := !(jsTruthy pVal) || pVal.length < 6
  let d := { d with
    emailError := if emailBad then "Ingresa un email válido." else d.emailError,
    passError := if passBad then
      "La contraseña debe tener al menos 6 caracteres." else d.passError }
  if emailBad || passBad then
    { dom := d, storage := storage0, redirect := none, events := [] }
  else
    let d := Login.setLoading d true
    let evs := [Ev.setLoading true]
    if eVal = "kevin@test.com" ∧ pVal = "123456" then
      let sess : StoredSession :=
        { token := some "demo_token_123",
          user := some { name := some "Kevin", email := some eVal,
                         role := some "admin" },
          remember := rememberChecked }
      let d2 := { d with formMsgText := "¡Login correcto! Redirigiendo…",
                         formMsgOk := true, formMsgVisible := true }
      { dom := Login.setLoading d2 false, storage := some sess,
        redirect := some "./dashboard.html",
        events := evs ++ [Ev.setLoading false] }
    else
      let d2 := { d with
        formMsgText := jsOrElse (some "Email o contraseña incorrectos.")
          "No se pudo iniciar sesión.",
        formMsgVisible := true }
      { dom := Login.setLoading d2 false, storage := storage0, redirect := none,
        events := evs ++ [Ev.setLoading false] }

end DemoLogin

namespace Admin

/-- `const API_BASE = "http://localhost:3000";` -/
def API_BASE : String := "http://localhost:3000"

/-- DOM state touched by the admin create-user script. -/
structure AdminDom where
  nameErr : String
  emailErr : String
  passErr : String
  msgClass : String
  msgText : String
  btnDisabled : Bool
  btnText : String
deriving DecidableEq

/-- Parsed JSON body of an admin API response (fields may be absent). -/
structure RespData where
  detail : Option String
  email : Option String
  role : Option String
deriving DecidableEq

/-- Outcome of the underlying fetch of an admin API call: a response
with an HTTP status and a parsed body (`none` when the body is empty,
null, or not parsable JSON — the script maps all of those to a null
`data`), or a rejected promise (network error). -/
inductive AdminFetch where
  | respond (status : Nat) (body : Option RespData)
  | reject
deriving DecidableEq

/-- Page state of the admin script: DOM, the value stored under the
"session" key, the last assigned navigation target, the role select's
value, whether the form has been reset, the event trace, and the
message of an uncaught exception if one was thrown. -/
structure AdminSt where
  dom : AdminDom
  storage : Option StoredSession
  href : Option String
  roleValue : String
  formWasReset : Bool
  events : List Ev
  threw : Option String
deriving DecidableEq

/-- `goLogin()`: remove the stored session and navigate to the login
page. -/
def goLogin (st : AdminSt) : AdminSt :=
  { st with storage := none, href := some "./login.html" }

/-- `setLoading(on)` of the admin script. -/
def setLoading (d : AdminDom) (isOn : Bool) : AdminDom :=
  { d with btnDisabled := isOn,
           btnText := if isOn then "Creando…" else "Crear usuario" }

/-- `clearErrors()` of the admin script. -/
def clearErrors (d : AdminDom) : AdminDom :=
  { d with nameErr := "", emailErr := "", passErr := "",
           msgClass := "msg", msgText := "" }

/-- `showMsg(type, text)` of the admin script. -/
def showMsg (d : AdminDom) (ty : String) (text : String) : AdminDom :=
  { d with msgClass := "msg " ++ (if ty = "ok" then "ok" else "bad"),
           msgText := text }

/-- The `Authorization` header value built by `authHeaders()`. -/
def bearer (token : String) : String := "Bearer " ++ token

/-- Result object of `apiFetch`. -/
structure ApiRes where
  ok : Bool
  status : Nat
  data : Option RespData
deriving DecidableEq

/-- `apiFetch(path, options)`: perform the fetch; on a 401 status call
`goLogin()`; treat 204 as a no-body success; otherwise parse the body
(null on failure) and return ok/status/data.  Returns the updated page
state together with `some` result, or `none` when the underlying
fetch rejected and the exception propagates to the caller. -/
def apiFetch (st0 : AdminSt) (path : String) (auth : Option String)
    (method : String) (body : List (String × String)) (f : AdminFetch) :
    AdminSt × Option ApiRes :=
  let st := { st0 with events := st0.events ++
    [Ev.request (API_BASE ++ path) method auth body, Ev.settled] }
  match f with
  | AdminFetch.reject => ({ st with threw := some fetchRejectMsg }, none)
  | AdminFetch.respond status bd =>
    let st := if status = 401 then goLogin st else st
    if status = 204 then
      (st, some { ok := true, status := 204, data := none })
    else
      (st, some { ok := httpOk status, status := status, data := bd })

/-- The submit listener of the admin create-user script: clear errors,
build the payload, run the three field validations (all of them), and
if they pass, POST to /admin/users with a bearer token, clear the
loading state, and surface the outcome.  There is no try/finally: a
rejected fetch propagates out of the handler. -/
def formSubmit (st0 : AdminSt) (sessionToken : String)
    (nameV emailV passV : String) (f : AdminFetch) : AdminSt :=
  let st := { st0 with dom := clearErrors st0.dom }
  let pName := jsTrim nameV
  let pEmail := jsToLower (jsTrim emailV)
  let pPass := passV
  let pRole := st.roleValue
  let nameBad := !(jsTruthy pName) || pName.length < 2
  let emailBad := !(isValidEmail pEmail)
  let passBad := !(jsTruthy pPass) || pPass.length < 6
  let st := { st with dom := { st.dom with
    nameErr := if nameBad then "Nombre inválido (mín 2 caracteres)." else st.dom.nameErr,
    emailErr := if emailBad then "Email inválido." else st.dom.emailErr,
    passErr := if passBad then
      "Contraseña inválida (mín 6 caracteres)." else st.dom.passErr } }
  if nameBad || emailBad || passBad then st
  else
    let st := { st with dom := setLoading st.dom true,
                        events := st.events ++ [Ev.setLoading true] }
    let fetched := apiFetch st "/admin/users" (some (bearer sessionToken)) "POST"
      [("name", pName), ("email", pEmail), ("password", pPass), ("role", pRole)] f
    match fetched with
    | (st, none) =>
      -- the awaited fetch rejected: the exception propagates and
      -- setLoading(false) never runs
      st
    | (st, some r) =>
      let st := { st with dom := setLoading st.dom false,
                          events := st.events ++ [Ev.setLoading false] }
      -- if (!r) return;  — r is always an object, never falsy
      if !r.ok then
        let badText := jsOrElse (r.data.bind RespData.detail)
          ("No se pudo crear (" ++ toString r.status ++ ")")
        { st with dom := showMsg st.dom "bad" badText }
      else
        match r.data with
        | none =>
          -- r.data.email is a property access on null: a TypeError is
          -- thrown, no message is shown, the form is not reset
          { st with threw := some nullAccessMsg }
        | some dta =>
          let okText := "Usuario creado ✅ (" ++ jsShow dta.email ++ " · rol: "
            ++ jsShow dta.role ++ ")"
          let st := { st with dom := showMsg st.dom "ok" okText }
          { st with formWasReset := true, roleValue := "user" }

/-- Result of the top-level page script up to the subtitle assignment. -/
structure LoadResult where
  storageCleared : Bool
  hrefAssigns : List String
  alerted : Bool
  subtitle : Option String
  threw : Option String
deriving DecidableEq

/-- The subtitle text rendered at page load. -/
def subtitleText (s : StoredSession) : String :=
  "Sesión: " ++ jsOrElse (s.user.bind JsUser.name) "admin" ++ " · rol: "
    ++ jsShow (s.user.bind JsUser.role)

/-- The top-level admin page script: session guard (`goLogin()` when
the session is absent or tokenless), admin-role check, and subtitle
rendering.  The input is the parsed value stored under the "session"
key, `none` when the key is missing.  Nothing halts the script after
`goLogin()`: the remaining statements still execute, and on a null
session the `session.user` access throws a TypeError. -/
def pageLoad (stored : Option StoredSession) : LoadResult :=
  let guardFails := match stored with
    | none => true
    | some s => !(jsTruthyOpt s.token)
  let cleared := guardFails
  let hrefs : List String := if guardFails then ["./login.html"] else []
  match stored with
  | none =>
    { storageCleared := cleared, hrefAssigns := hrefs, alerted := false,
      subtitle := none, threw := some nullAccessMsg }
  | some s =>
    let userRole := s.user.bind JsUser.role
    if userRole ≠ some "admin" then
      { storageCleared := cleared, hrefAssigns := hrefs ++ ["./dashboard.html"],
        alerted := true, subtitle := some (subtitleText s), threw := none }
    else
      { storageCleared := cleared, hrefAssigns := hrefs, alerted := false,
        subtitle := some (subtitleText s), threw := none }

end Admin

/-- State of the password input's type attribute and the toggle
button's label. -/
structure ToggleState where
  passType : String
  toggleLabel : String
deriving DecidableEq

/-- The togglePass click listener, identical in all three scripts:
flip the input between "password" and "text" and set the button label
to the matching eye icon. -/
def togglePassClick (s : ToggleState) : ToggleState :=
  let hidden := s.passType = "password"
  { passType := if hidden then "text" else "password",
    toggleLabel := if hidden then "🙈" else "👁" }

/-- A fresh login page DOM, as the page's markup presents it. -/
def initLoginDom : LoginDom :=
  { emailError := "", passError := "", formMsgText := "", formMsgVisible := false,
    formMsgOk := false, btnDisabled := false, btnText := "Entrar" }

/-- A sample logged-in admin session for concrete runs. -/
def sampleSession : StoredSession :=
  { token := some "demo_token_123",
    user := some { name := some "Kevin", email := some "kevin@test.com",
                   role := some "admin" },
    remember := true }

/-- A fresh admin page state after a successful guarded load. -/
def Admin.initSt : Admin.AdminSt :=
  { dom := { nameErr := "", emailErr := "", passErr := "", msgClass := "msg",
             msgText := "", btnDisabled := false, btnText := "Crear usuario" },
    storage := some sampleSession, href := none, roleValue := "user",
    formWasReset := false, events := [], threw := none }

lemma stringSplits_any_iff (l : List Char) (p : List Char × List Char → Bool) :
    (stringSplits l).any p = true ↔ ∃ a b, l = a ++ b ∧ p (a, b) = true := by
  constructor
  · intro h
    rcases List.any_eq_true.mp h with ⟨x, hx, hpx⟩
    rcases List.mem_map.mp hx with ⟨i, _, rfl⟩
    exact ⟨l.take i, l.drop i, (List.take_append_drop i l).symm, hpx⟩
  · rintro ⟨a, b, rfl, hp⟩
    refine List.any_eq_true.mpr ⟨(a, b), ?_, hp⟩
    refine List.mem_map.mpr ⟨a.length, ?_, ?_⟩
    · exact List.mem_range.mpr (by simp [List.length_append]; omega)
    · rw [List.take_left, List.drop_left]

lemma headIs_iff (ch : Char) (l : List Char) :
    headIs ch l = true ↔ ∃ t, l = ch :: t := by
  cases l with
  | nil => simp [headIs]
  | cons c t =>
    constructor
    · intro h
      have hc : c = ch := by simpa [headIs] using h
      exact ⟨t, by rw [hc]⟩
    · rintro ⟨t', ht⟩
      have hc : c = ch := ((List.cons.injEq c t ch t').mp ht).1
      simp [headIs, hc]

lemma matchDotTail_iff (l : List Char) :
    matchDotTail l = true ↔ ∃ b c, l = b ++ '.' :: c ∧ b ≠ [] ∧ c ≠ [] ∧
      (∀ x ∈ b, emailAtom x = true) ∧ (∀ x ∈ c, emailAtom x = true) := by
  rw [matchDotTail, stringSplits_any_iff]
  constructor
  · rintro ⟨b, rest, rfl, hp⟩
    simp only [Bool.and_eq_true, List.all_eq_true, Bool.not_eq_true',
      List.isEmpty_eq_false, headIs_iff] at hp
    obtain ⟨⟨⟨⟨hb, hab⟩, t, rfl⟩, hc⟩, hac⟩ := hp
    exact ⟨b, t, rfl, hb, hc, hab, hac⟩
  · rintro ⟨b, c, rfl, hb, hc, hab, hac⟩
    refine ⟨b, '.' :: c, rfl, ?_⟩
    simp only [Bool.and_eq_true, List.all_eq_true, Bool.not_eq_true',
      List.isEmpty_eq_false, headIs_iff, List.tail_cons]
    exact ⟨⟨⟨⟨hb, hab⟩, c, rfl⟩, hc⟩, hac⟩

lemma isValidEmail_iff (s : String) :
    isValidEmail s = true ↔ EmailMatches s := by
  rw [isValidEmail, stringSplits_any_iff, EmailMatches]
  constructor
  · rintro ⟨a, rest, hs, hp⟩
    simp only [Bool.and_eq_true, Bool.not_eq_true', List.isEmpty_eq_false,
      List.all_eq_true, headIs_iff] at hp
    obtain ⟨⟨⟨ha, haa⟩, t, rfl⟩, ht⟩ := hp
    rw [List.tail_cons] at ht
    obtain ⟨b, c, rfl, hb, hc, hab, hac⟩ := (matchDotTail_iff t).mp ht
    exact ⟨a, b, c, hs, ha, hb, hc, haa, hab, hac⟩
  · rintro ⟨a, b, c, hs, ha, hb, hc, haa, hab, hac⟩
    refine ⟨a, '@' :: (b ++ '.' :: c), hs, ?_⟩
    simp only [Bool.and_eq_true, Bool.not_eq_true', List.isEmpty_eq_false,
      List.all_eq_true, headIs_iff, List.tail_cons]
    refine ⟨⟨⟨ha, haa⟩, _, rfl⟩, ?_⟩
    exact (matchDotTail_iff _).mpr ⟨b, c, rfl, hb, hc, hab, hac⟩

lemma emailAtom_at : emailAtom '@' = false := by decide

lemma emailAtom_ne_at {x : Char} (h : emailAtom x = true) : x ≠ '@' := by
  intro hx
  rw [hx, emailAtom_at] at h
  exact Bool.false_ne_true h

lemma isValidEmail_no_at (s : String) (h : ¬ '@' ∈ s.data) :
    isValidEmail s = false := by
  rw [Bool.eq_false_iff]
  intro ht
  obtain ⟨a, b, c, hs, -, -, -, -, -, -⟩ := (isValidEmail_iff s).mp ht
  apply h
  rw [hs]
  simp

lemma isValidEmail_no_dot_after_at (s : String) (l r : List Char)
    (hs : s.data = l ++ '@' :: r) (h : ¬ '.' ∈ r) : isValidEmail s = false := by
  rw [Bool.eq_false_iff]
  intro ht
  obtain ⟨a, b, c, hm, -, -, -, haa, hab, hac⟩ := (isValidEmail_iff s).mp ht
  have heq : a ++ '@' :: (b ++ '.' :: c) = l ++ '@' :: r := hm.symm.trans hs
  have hnoatX : ¬ '@' ∈ b ++ '.' :: c := by
    intro hmem
    rcases List.mem_append.mp hmem with hb | hbc
    · exact emailAtom_ne_at (hab _ hb) rfl
    · rcases List.mem_cons.mp hbc with hdot | hc
      · exact absurd hdot (by decide)
      · exact emailAtom_ne_at (hac _ hc) rfl
  have hnoatA : ¬ '@' ∈ a := by
    intro hmem
    exact emailAtom_ne_at (haa _ hmem) rfl
  rcases List.append_eq_append_iff.mp heq with ⟨a', hl, hX⟩ | ⟨c', ha, hR⟩
  · cases a' with
    | nil =>
      simp only [List.nil_append] at hX
      have hr : b ++ '.' :: c = r := ((List.cons.injEq _ _ _ _).mp hX).2
      exact h (hr ▸ (by simp : '.' ∈ b ++ '.' :: c))
    | cons a0 a1 =>
      have h0 : '@' = a0 ∧ b ++ '.' :: c = a1 ++ '@' :: r :=
        (List.cons.injEq _ _ _ _).mp (by simpa using hX)
      exact hnoatX (h0.2 ▸ (by simp : '@' ∈ a1 ++ '@' :: r))
  · cases c' with
    | nil =>
      simp only [List.nil_append] at hR
      have hr : r = b ++ '.' :: c := ((List.cons.injEq _ _ _ _).mp hR).2
      exact h (hr ▸ (by simp : '.' ∈ b ++ '.' :: c))
    | cons c0 c1 =>
      have h0 : '@' = c0 ∧ r = c1 ++ '@' :: (b ++ '.' :: c) :=
        (List.cons.injEq _ _ _ _).mp (by simpa using hR)
      apply hnoatA
      rw [ha, ← h0.1]
      simp

lemma jsTruthy_of_pos {s : String} (h : 0 < s.length) : jsTruthy s = true := by
  rw [jsTruthy]
  cases hE : s.isEmpty with
  | false => rfl
  | true =>
    rw [String.isEmpty_iff] at hE
    subst hE
    exact absurd h (by decide)

lemma jsOrElse_ne_empty (x : Option String) {fb : String} (h : fb ≠ "") :
    jsOrElse x fb ≠ "" := by
  cases x with
  | none => exact h
  | some s =>
    simp only [jsOrElse]
    by_cases hs : s.isEmpty = true
    · rw [if_pos hs]; exact h
    · rw [if_neg hs]
      intro hcon
      exact hs ((String.isEmpty_iff s).mpr hcon)

lemma jsOrElse_some (s fb : String) (h : s ≠ "") : jsOrElse (some s) fb = s := by
  simp only [jsOrElse]
  rw [if_neg]
  intro he
  exact h ((String.isEmpty_iff s).mp he)

/-- Claim C1: `isValidEmail` returns true exactly on the language of the
regular expression `^[^\s@]+@[^\s@]+\.[^\s@]+$`; in particular it
returns false on every string without an `@`, false on every string
without a `.` after the `@`, and true on "a@b.c". -/
theorem isValidEmail_spec :
    (∀ s, isValidEmail s = true ↔ EmailMatches s) ∧
    (∀ s, ¬ '@' ∈ s.data → isValidEmail s = false) ∧
    (∀ s l r, s.data = l ++ '@' :: r → ¬ '.' ∈ r → isValidEmail s = false) ∧
    isValidEmail "a@b.c" = true :=
  ⟨isValidEmail_iff, isValidEmail_no_at, isValidEmail_no_dot_after_at, by decide⟩

/-- Witness for C1 at concrete inputs: "ab" has no `@`, and "a@bc" has
no `.` after its `@`. -/
theorem isValidEmail_spec_witness :
    isValidEmail "ab" = false ∧ isValidEmail "a@bc" = false :=
  ⟨isValidEmail_spec.2.1 "ab" (by decide),
   isValidEmail_spec.2.2.1 "a@bc" ['a'] ['b', 'c'] (by decide) (by decide)⟩

/-- Claim C2 counterexample: a valid admin create-user submission whose
fetch rejects ends with the submit button still disabled and no clearing
setLoading event in the trace. -/
theorem adminBusyStateCounterexample :
    (Admin.formSubmit Admin.initSt "tok" "Ana" "a@b.c" "123456"
        Admin.AdminFetch.reject).dom.btnDisabled = true ∧
    Ev.setLoading false ∉
      (Admin.formSubmit Admin.initSt "tok" "Ana" "a@b.c" "123456"
        Admin.AdminFetch.reject).events := by
  constructor <;> decide

/-- Claim C2, amended: on the login form the busy state is set before the
request starts and cleared after it settles on every code path (success,
non-success status, network error) via the finally block; on the admin
create-user form it is set before the request and cleared after any HTTP
response, but a rejected fetch (network error) propagates out of the
handler and the busy state stays set. -/
theorem busyStateLifecycle :
    (∀ dom0 st0 e p rem f, isValidEmail (jsTrim e) = true → 6 ≤ p.length →
      (Login.formSubmit dom0 st0 e p rem f).events =
        [Ev.setLoading true,
         Ev.request "http://localhost:3000/auth/login" "POST" none
           [("email", jsTrim e), ("password", p)],
         Ev.settled, Ev.setLoading false]) ∧
    (∀ st0 tok n e p status bd, 2 ≤ (jsTrim n).length →
      isValidEmail (jsToLower (jsTrim e)) = true → 6 ≤ p.length →
      (Admin.formSubmit st0 tok n e p (Admin.AdminFetch.respond status bd)).events =
        st0.events ++
          [Ev.setLoading true,
           Ev.request (Admin.API_BASE ++ "/admin/users") "POST"
             (some (Admin.bearer tok))
             [("name", jsTrim n), ("email", jsToLower (jsTrim e)),
              ("password", p), ("role", st0.roleValue)],
           Ev.settled, Ev.setLoading false]) ∧
    (∀ st0 tok n e p, 2 ≤ (jsTrim n).length →
      isValidEmail (jsToLower (jsTrim e)) = true → 6 ≤ p.length →
      (Admin.formSubmit st0 tok n e p Admin.AdminFetch.reject).events =
        st0.events ++
          [Ev.setLoading true,
           Ev.request (Admin.API_BASE ++ "/admin/users") "POST"
             (some (Admin.bearer tok))
             [("name", jsTrim n), ("email", jsToLower (jsTrim e)),
              ("password", p), ("role", st0.roleValue)],
           Ev.settled] ∧
      (Admin.formSubmit st0 tok n e p Admin.AdminFetch.reject).dom.btnDisabled
        = true) := by
  refine ⟨?_, ?_, ?_⟩
  · intro dom0 st0 e p rem f he hp6
    have hT := jsTruthy_of_pos (show 0 < p.length by omega)
    have hD := decide_eq_false (Nat.not_lt.mpr hp6)
    cases f with
    | reject =>
      simp [Login.formSubmit, Login.clearErrors, Login.setLoading, he, hT, hD]
    | respond status body =>
      cases body <;> by_cases h : httpOk status <;>
        simp [Login.formSubmit, Login.clearErrors, Login.setLoading, he, hT, hD, h]
  · intro st0 tok n e p status bd hn2 he hp6
    have hTp := jsTruthy_of_pos (show 0 < p.length by omega)
    have hDp := decide_eq_false (Nat.not_lt.mpr hp6)
    have hTn := jsTruthy_of_pos (show 0 < (jsTrim n).length by omega)
    have hDn := decide_eq_false (Nat.not_lt.mpr hn2)
    by_cases h204 : status = 204
    · subst h204
      cases bd <;>
        simp [Admin.formSubmit, Admin.apiFetch, Admin.goLogin, Admin.clearErrors,
          Admin.setLoading, Admin.showMsg, httpOk, he, hTp, hDp, hTn, hDn]
    · by_cases h401 : status = 401
      · subst h401
        cases bd <;>
          simp [Admin.formSubmit, Admin.apiFetch, Admin.goLogin, Admin.clearErrors,
            Admin.setLoading, Admin.showMsg, httpOk, he, hTp, hDp, hTn, hDn, h204]
      · by_cases hok : httpOk status <;> cases bd <;>
          simp [Admin.formSubmit, Admin.apiFetch, Admin.goLogin, Admin.clearErrors,
            Admin.setLoading, Admin.showMsg, he, hTp, hDp, hTn, hDn, h204, h401, hok]
  · intro st0 tok n e p hn2 he hp6
    have hTp := jsTruthy_of_pos (show 0 < p.length by omega)
    have hDp := decide_eq_false (Nat.not_lt.mpr hp6)
    have hTn := jsTruthy_of_pos (show 0 < (jsTrim n).length by omega)
    have hDn := decide_eq_false (Nat.not_lt.mpr hn2)
    constructor <;>
      simp [Admin.formSubmit, Admin.apiFetch, Admin.setLoading, Admin.clearErrors,
        he, hTp, hDp, hTn, hDn]

/-- Witness for the amended C2 at a concrete login submission whose fetch
rejects. -/
theorem busyStateLifecycleWitness :
    (Login.formSubmit initLoginDom none "a@b.c" "123456" false
        Login.LoginFetch.reject).events =
      [Ev.setLoading true,
       Ev.request "http://localhost:3000/auth/login" "POST" none
         [("email", jsTrim "a@b.c"), ("password", "123456")],
       Ev.settled, Ev.setLoading false] :=
  busyStateLifecycle.1 initLoginDom none "a@b.c" "123456" false
    Login.LoginFetch.reject (by decide) (by decide)

/-- Claim C3: every admin API call through `apiFetch` whose response
status is 401 removes the stored session and navigates to the login page,
both at the wrapper itself and across a whole create-user submission. -/
theorem unauthorizedClearsSession :
    (∀ st path auth method body bd,
      ((Admin.apiFetch st path auth method body
          (Admin.AdminFetch.respond 401 bd)).1).storage = none ∧
      ((Admin.apiFetch st path auth method body
          (Admin.AdminFetch.respond 401 bd)).1).href = some "./login.html") ∧
    (∀ st0 tok n e p bd, 2 ≤ (jsTrim n).length →
      isValidEmail (jsToLower (jsTrim e)) = true → 6 ≤ p.length →
      (Admin.formSubmit st0 tok n e p
          (Admin.AdminFetch.respond 401 bd)).storage = none ∧
      (Admin.formSubmit st0 tok n e p
          (Admin.AdminFetch.respond 401 bd)).href = some "./login.html") := by
  constructor
  · intro st path auth method body bd
    constructor <;> simp [Admin.apiFetch, Admin.goLogin]
  · intro st0 tok n e p bd hn2 he hp6
    have hTp := jsTruthy_of_pos (show 0 < p.length by omega)
    have hDp := decide_eq_false (Nat.not_lt.mpr hp6)
    have hTn := jsTruthy_of_pos (show 0 < (jsTrim n).length by omega)
    have hDn := decide_eq_false (Nat.not_lt.mpr hn2)
    constructor <;> cases bd <;>
      simp [Admin.formSubmit, Admin.apiFetch, Admin.goLogin, Admin.clearErrors,
        Admin.setLoading, Admin.showMsg, httpOk, he, hTp, hDp, hTn, hDn]

/-- Witness for C3 at a concrete create-user submission answered 401. -/
theorem unauthorizedClearsSessionWitness :
    (Admin.formSubmit Admin.initSt "tok" "Ana" "a@b.c" "123456"
        (Admin.AdminFetch.respond 401 none)).storage = none ∧
    (Admin.formSubmit Admin.initSt "tok" "Ana" "a@b.c" "123456"
        (Admin.AdminFetch.respond 401 none)).href = some "./login.html" :=
  unauthorizedClearsSession.2 Admin.initSt "tok" "Ana" "a@b.c" "123456" none
    (by decide) (by decide) (by decide)

/-- Claim C4: a login submission with accepted credentials stores the
session object built from the response body plus the remember flag and
schedules the dashboard redirect; a rejected one leaves storage unchanged
and shows an error message.  Stated for the API-connected script (any
success response with a JSON object body; any non-success response) and
for the demo script (the hard-coded credentials; any other credentials). -/
theorem loginSessionStorage :
    (∀ dom0 st0 e p rem status d, isValidEmail (jsTrim e) = true → 6 ≤ p.length →
      httpOk status = true →
      (Login.formSubmit dom0 st0 e p rem
          (Login.LoginFetch.respond status (Login.LoginBody.obj d))).storage =
        some { token := d.token, user := d.user, remember := rem } ∧
      (Login.formSubmit dom0 st0 e p rem
          (Login.LoginFetch.respond status (Login.LoginBody.obj d))).redirect =
        some "./dashboard.html") ∧
    (∀ dom0 st0 e p rem status body, isValidEmail (jsTrim e) = true → 6 ≤ p.length →
      httpOk status = false →
      (Login.formSubmit dom0 st0 e p rem
          (Login.LoginFetch.respond status body)).storage = st0 ∧
      (Login.formSubmit dom0 st0 e p rem
          (Login.LoginFetch.respond status body)).dom.formMsgVisible = true ∧
      (Login.formSubmit dom0 st0 e p rem
          (Login.LoginFetch.respond status body)).dom.formMsgText ≠ "" ∧
      (Login.formSubmit dom0 st0 e p rem
          (Login.LoginFetch.respond status body)).redirect = none) ∧
    (∀ dom0 st0 e rem, jsTrim e = "kevin@test.com" →
      (DemoLogin.formSubmit dom0 st0 e "123456" rem).storage =
        some { token := some "demo_token_123",
               user := some { name := some "Kevin", email := some "kevin@test.com",
                              role := some "admin" },
               remember := rem } ∧
      (DemoLogin.formSubmit dom0 st0 e "123456" rem).redirect =
        some "./dashboard.html") ∧
    (∀ dom0 st0 e p rem, isValidEmail (jsTrim e) = true → 6 ≤ p.length →
      ¬(jsTrim e = "kevin@test.com" ∧ p = "123456") →
      (DemoLogin.formSubmit dom0 st0 e p rem).storage = st0 ∧
      (DemoLogin.formSubmit dom0 st0 e p rem).dom.formMsgVisible = true ∧
      (DemoLogin.formSubmit dom0 st0 e p rem).dom.formMsgText =
        "Email o contraseña incorrectos." ∧
      (DemoLogin.formSubmit dom0 st0 e p rem).redirect = none) := by
  refine ⟨?_, ?_, ?_, ?_⟩
  · intro dom0 st0 e p rem status d he hp6 hok
    have hT := jsTruthy_of_pos (show 0 < p.length by omega)
    have hD := decide_eq_false (Nat.not_lt.mpr hp6)
    constructor <;>
      simp [Login.formSubmit, Login.clearErrors, Login.setLoading, he, hT, hD, hok]
  · intro dom0 st0 e p rem status body he hp6 hbad
    have hT := jsTruthy_of_pos (show 0 < p.length by omega)
    have hD := decide_eq_false (Nat.not_lt.mpr hp6)
    cases body <;>
      refine ⟨?_, ?_, ?_, ?_⟩ <;>
      simp [Login.formSubmit, Login.clearErrors, Login.setLoading, he, hT, hD, hbad] <;>
      exact jsOrElse_ne_empty _ (by decide)
  · intro dom0 st0 e rem he
    constructor <;>
      simp [DemoLogin.formSubmit, Login.clearErrors, Login.setLoading, he,
        (by decide : isValidEmail "kevin@test.com" = true),
        (by decide : jsTruthy "123456" = true),
        (by decide : ¬("123456".length < 6))]
  · intro dom0 st0 e p rem he hp6 hcred
    have hT := jsTruthy_of_pos (show 0 < p.length by omega)
    have hD := decide_eq_false (Nat.not_lt.mpr hp6)
    refine ⟨?_, ?_, ?_, ?_⟩ <;>
      simp [DemoLogin.formSubmit, Login.clearErrors, Login.setLoading, he, hT, hD,
        hcred, jsOrElse]
    all_goals decide

/-- Witness for C4 at a concrete accepted login. -/
theorem loginSessionStorageWitness :
    (Login.formSubmit initLoginDom none "a@b.c" "123456" true
        (Login.LoginFetch.respond 200
          (Login.LoginBody.obj ⟨none, some "t1", none⟩))).storage =
      some { token := some "t1", user := none, remember := true } ∧
    (Login.formSubmit initLoginDom none "a@b.c" "123456" true
        (Login.LoginFetch.respond 200
          (Login.LoginBody.obj ⟨none, some "t1", none⟩))).redirect =
      some "./dashboard.html" :=
  loginSessionStorage.1 initLoginDom none "a@b.c" "123456" true 200
    ⟨none, some "t1", none⟩ (by decide) (by decide) (by decide)

/-- Claim C5 evaluated at its failing input: a create-user submission
answered by a 204 no-body success throws a TypeError reading a property of
the null `data` — no confirmation message is shown and the form is not
reset — whereas a 201 response with a JSON body shows the confirmation
with the email and role, resets the form, and re-defaults the role. -/
theorem createUser204Crash :
    (Admin.formSubmit Admin.initSt "tok" "Ana" "a@b.c" "123456"
        (Admin.AdminFetch.respond 204 none)).threw = some nullAccessMsg ∧
    (Admin.formSubmit Admin.initSt "tok" "Ana" "a@b.c" "123456"
        (Admin.AdminFetch.respond 204 none)).formWasReset = false ∧
    (Admin.formSubmit Admin.initSt "tok" "Ana" "a@b.c" "123456"
        (Admin.AdminFetch.respond 204 none)).dom.msgText = "" ∧
    (Admin.formSubmit Admin.initSt "tok" "Ana" "a@b.c" "123456"
        (Admin.AdminFetch.respond 201
          (some ⟨none, some "a@b.c", some "user"⟩))).dom.msgText =
      "Usuario creado ✅ (a@b.c · rol: user)" ∧
    (Admin.formSubmit Admin.initSt "tok" "Ana" "a@b.c" "123456"
        (Admin.AdminFetch.respond 201
          (some ⟨none, some "a@b.c", some "user"⟩))).formWasReset = true ∧
    (Admin.formSubmit Admin.initSt "tok" "Ana" "a@b.c" "123456"
        (Admin.AdminFetch.respond 201
          (some ⟨none, some "a@b.c", some "user"⟩))).roleValue = "user" := by
  refine ⟨?_, ?_, ?_, ?_, ?_, ?_⟩ <;> decide

/-- Claim C6: on all three forms, a password of length less than six
(including the empty password) sets the password-length error message and
aborts the submission with no events — in particular no network request. -/
theorem shortPasswordBlocksSubmission :
    (∀ dom0 st0 e p rem f, p.length < 6 →
      (Login.formSubmit dom0 st0 e p rem f).dom.passError =
        "La contraseña debe tener al menos 6 caracteres." ∧
      (Login.formSubmit dom0 st0 e p rem f).events = []) ∧
    (∀ dom0 st0 e p rem, p.length < 6 →
      (DemoLogin.formSubmit dom0 st0 e p rem).dom.passError =
        "La contraseña debe tener al menos 6 caracteres." ∧
      (DemoLogin.formSubmit dom0 st0 e p rem).events = []) ∧
    (∀ st0 tok n e p f, p.length < 6 →
      (Admin.formSubmit st0 tok n e p f).dom.passErr =
        "Contraseña inválida (mín 6 caracteres)." ∧
      (Admin.formSubmit st0 tok n e p f).events = st0.events) := by
  refine ⟨?_, ?_, ?_⟩
  · intro dom0 st0 e p rem f hlt
    constructor <;>
      simp [Login.formSubmit, Login.clearErrors, decide_eq_true hlt]
  · intro dom0 st0 e p rem hlt
    constructor <;>
      simp [DemoLogin.formSubmit, Login.clearErrors, decide_eq_true hlt]
  · intro st0 tok n e p f hlt
    constructor <;>
      simp [Admin.formSubmit, Admin.clearErrors, decide_eq_true hlt]

/-- Witness for C6 at a concrete login submission with a short password. -/
theorem shortPasswordWitness :
    (Login.formSubmit initLoginDom none "a@b.c" "123" false
        Login.LoginFetch.reject).dom.passError =
      "La contraseña debe tener al menos 6 caracteres." ∧
    (Login.formSubmit initLoginDom none "a@b.c" "123" false
        Login.LoginFetch.reject).events = [] :=
  shortPasswordBlocksSubmission.1 initLoginDom none "a@b.c" "123" false
    Login.LoginFetch.reject (by decide)

/-- Claim C7 counterexample: a stored session with an empty token and a
non-admin role ends with the dashboard, not the login page, as the last
navigation assignment, and a tokenless admin-role session renders the
subtitle after the login redirect was assigned. -/
theorem adminGuardCounterexample :
    (Admin.pageLoad (some ⟨some "", some ⟨some "Kevin", none, some "user"⟩,
        false⟩)).hrefAssigns = ["./login.html", "./dashboard.html"] ∧
    (Admin.pageLoad (some ⟨some "", some ⟨some "Kevin", none, some "user"⟩,
        false⟩)).alerted = true ∧
    (Admin.pageLoad (some ⟨some "", some ⟨some "Kevin", none, some "admin"⟩,
        false⟩)).subtitle = some "Sesión: Kevin · rol: admin" := by
  refine ⟨?_, ?_, ?_⟩ <;> decide

/-- Claim C7, amended: on an admin page load with an absent or tokenless
session, the stored session is cleared and the first navigation assignment
is the login page; but the script continues.  With an absent session the
role check throws a TypeError (so the subtitle never renders); with a
tokenless non-admin session the navigation target is overwritten to the
dashboard; with a tokenless admin-role session the subtitle is still
rendered before navigation. -/
theorem adminGuardAmended :
    (∀ stored, (stored = none ∨ ∃ s, stored = some s ∧ jsTruthyOpt s.token = false) →
      (Admin.pageLoad stored).storageCleared = true ∧
      (Admin.pageLoad stored).hrefAssigns.head? = some "./login.html") ∧
    ((Admin.pageLoad none).threw = some nullAccessMsg ∧
      (Admin.pageLoad none).subtitle = none) ∧
    (∀ s, jsTruthyOpt s.token = false → s.user.bind JsUser.role ≠ some "admin" →
      (Admin.pageLoad (some s)).hrefAssigns.getLast? = some "./dashboard.html" ∧
      (Admin.pageLoad (some s)).alerted = true) ∧
    (∀ s, jsTruthyOpt s.token = false → s.user.bind JsUser.role = some "admin" →
      (Admin.pageLoad (some s)).subtitle = some (Admin.subtitleText s) ∧
      (Admin.pageLoad (some s)).hrefAssigns = ["./login.html"]) := by
  refine ⟨?_, ⟨by decide, by decide⟩, ?_, ?_⟩
  · rintro stored (rfl | ⟨s, rfl, hs⟩)
    · exact ⟨rfl, rfl⟩
    · constructor <;>
        · by_cases hr : s.user.bind JsUser.role = some "admin" <;>
            simp [Admin.pageLoad, hs, hr]
  · intro s hs hr
    constructor <;> simp [Admin.pageLoad, hs, hr]
  · intro s hs hr
    constructor <;> simp [Admin.pageLoad, hs, hr]

/-- Witness for the amended C7 at an absent session. -/
theorem adminGuardAmendedWitness :
    (Admin.pageLoad none).storageCleared = true ∧
    (Admin.pageLoad none).hrefAssigns.head? = some "./login.html" :=
  adminGuardAmended.1 none (Or.inl rfl)

/-- Claim C8: a login submission that passes validation disables the
submit control with the busy label and issues a POST to /auth/login whose
body carries the email and password; a non-success status with a JSON
object body surfaces the server detail or the generic fallback in the
visible message area. -/
theorem loginRequestShape :
    (∀ d : LoginDom, (Login.setLoading d true).btnDisabled = true ∧
      (Login.setLoading d true).btnText = "Ingresando...") ∧
    (∀ dom0 st0 e p rem f, isValidEmail (jsTrim e) = true → 6 ≤ p.length →
      (Login.formSubmit dom0 st0 e p rem f).events.take 2 =
        [Ev.setLoading true,
         Ev.request "http://localhost:3000/auth/login" "POST" none
           [("email", jsTrim e), ("password", p)]]) ∧
    (∀ dom0 st0 e p rem status d, isValidEmail (jsTrim e) = true → 6 ≤ p.length →
      httpOk status = false →
      (Login.formSubmit dom0 st0 e p rem
          (Login.LoginFetch.respond status (Login.LoginBody.obj d))).dom.formMsgText =
        jsOrElse d.detail "Email o contraseña incorrectos." ∧
      (Login.formSubmit dom0 st0 e p rem
          (Login.LoginFetch.respond status
            (Login.LoginBody.obj d))).dom.formMsgVisible = true) := by
  refine ⟨?_, ?_, ?_⟩
  · intro d
    exact ⟨rfl, rfl⟩
  · intro dom0 st0 e p rem f he hp6
    have hT := jsTruthy_of_pos (show 0 < p.length by omega)
    have hD := decide_eq_false (Nat.not_lt.mpr hp6)
    cases f with
    | reject =>
      simp [Login.formSubmit, Login.clearErrors, Login.setLoading, he, hT, hD]
    | respond status body =>
      cases body <;> by_cases h : httpOk status <;>
        simp [Login.formSubmit, Login.clearErrors, Login.setLoading, he, hT, hD, h]
  · intro dom0 st0 e p rem status d he hp6 hbad
    have hT := jsTruthy_of_pos (show 0 < p.length by omega)
    have hD := decide_eq_false (Nat.not_lt.mpr hp6)
    constructor
    · simp [Login.formSubmit, Login.clearErrors, Login.setLoading, he, hT, hD, hbad]
      exact jsOrElse_some _ _ (jsOrElse_ne_empty _ (by decide))
    · simp [Login.formSubmit, Login.clearErrors, Login.setLoading, he, hT, hD, hbad]

/-- Witness for C8 at a concrete 500 response carrying a detail text. -/
theorem loginRequestShapeWitness :
    (Login.formSubmit initLoginDom none "a@b.c" "123456" false
        (Login.LoginFetch.respond 500
          (Login.LoginBody.obj ⟨some "detail text", none, none⟩))).dom.formMsgText =
      jsOrElse (some "detail text") "Email o contraseña incorrectos." ∧
    (Login.formSubmit initLoginDom none "a@b.c" "123456" false
        (Login.LoginFetch.respond 500
          (Login.LoginBody.obj ⟨some "detail text", none,
            none⟩))).dom.formMsgVisible = true :=
  loginRequestShape.2.2 initLoginDom none "a@b.c" "123456" false 500
    ⟨some "detail text", none, none⟩ (by decide) (by decide) (by decide)

/-- Claim C9: the field validations do not short-circuit: with an invalid
email and a too-short password (and, on the admin form, a too-short name)
every corresponding error message is set and the submission is aborted
with no request. -/
theorem allValidatorsRun :
    (∀ dom0 st0 e p rem f, isValidEmail (jsTrim e) = false → p.length < 6 →
      (Login.formSubmit dom0 st0 e p rem f).dom.emailError =
        "Ingresa un email válido." ∧
      (Login.formSubmit dom0 st0 e p rem f).dom.passError =
        "La contraseña debe tener al menos 6 caracteres." ∧
      (Login.formSubmit dom0 st0 e p rem f).events = []) ∧
    (∀ dom0 st0 e p rem, isValidEmail (jsTrim e) = false → p.length < 6 →
      (DemoLogin.formSubmit dom0 st0 e p rem).dom.emailError =
        "Ingresa un email válido." ∧
      (DemoLogin.formSubmit dom0 st0 e p rem).dom.passError =
        "La contraseña debe tener al menos 6 caracteres." ∧
      (DemoLogin.formSubmit dom0 st0 e p rem).events = []) ∧
    (∀ st0 tok n e p f, (jsTrim n).length < 2 →
      isValidEmail (jsToLower (jsTrim e)) = false → p.length < 6 →
      (Admin.formSubmit st0 tok n e p f).dom.nameErr =
        "Nombre inválido (mín 2 caracteres)." ∧
      (Admin.formSubmit st0 tok n e p f).dom.emailErr = "Email inválido." ∧
      (Admin.formSubmit st0 tok n e p f).dom.passErr =
        "Contraseña inválida (mín 6 caracteres)." ∧
      (Admin.formSubmit st0 tok n e p f).events = st0.events) := by
  refine ⟨?_, ?_, ?_⟩
  · intro dom0 st0 e p rem f he hlt
    refine ⟨?_, ?_, ?_⟩ <;>
      simp [Login.formSubmit, Login.clearErrors, he, decide_eq_true hlt]
  · intro dom0 st0 e p rem he hlt
    refine ⟨?_, ?_, ?_⟩ <;>
      simp [DemoLogin.formSubmit, Login.clearErrors, he, decide_eq_true hlt]
  · intro st0 tok n e p f hn he hlt
    refine ⟨?_, ?_, ?_, ?_⟩ <;>
      simp [Admin.formSubmit, Admin.clearErrors, he, decide_eq_true hlt,
        decide_eq_true hn]

/-- Witness for C9 at a concrete admin submission with all three fields
invalid. -/
theorem allValidatorsRunWitness :
    (Admin.formSubmit Admin.initSt "tok" "A" "nope" "123"
        Admin.AdminFetch.reject).dom.nameErr =
      "Nombre inválido (mín 2 caracteres)." ∧
    (Admin.formSubmit Admin.initSt "tok" "A" "nope" "123"
        Admin.AdminFetch.reject).dom.emailErr = "Email inválido." ∧
    (Admin.formSubmit Admin.initSt "tok" "A" "nope" "123"
        Admin.AdminFetch.reject).dom.passErr =
      "Contraseña inválida (mín 6 caracteres)." ∧
    (Admin.formSubmit Admin.initSt "tok" "A" "nope" "123"
        Admin.AdminFetch.reject).events = Admin.initSt.events :=
  allValidatorsRun.2.2 Admin.initSt "tok" "A" "nope" "123" Admin.AdminFetch.reject
    (by decide) (by decide) (by decide)

/-- Claim C10 counterexample: from type "password" with label "X", two
clicks restore the type but set the label to the canonical eye icon, not
to "X". -/
theorem togglePassCounterexample :
    togglePassClick (togglePassClick ⟨"password", "X"⟩) ≠
      (⟨"password", "X"⟩ : ToggleState) ∧
    (togglePassClick (togglePassClick ⟨"password", "X"⟩)).passType = "password" := by
  constructor <;> decide

/-- Claim C10, amended: a click flips the type between "password" and
"text", and two clicks restore the type; the full state (type and label)
is restored by two clicks exactly from states whose label is the canonical
toggle label for their type — the label is otherwise overwritten with the
canonical one. -/
theorem togglePassAmendedSpec :
    (∀ s : ToggleState, s.passType = "password" ∨ s.passType = "text" →
      (togglePassClick s).passType ≠ s.passType ∧
      ((togglePassClick s).passType = "password" ∨
        (togglePassClick s).passType = "text") ∧
      (togglePassClick (togglePassClick s)).passType = s.passType) ∧
    (∀ s : ToggleState,
      (s.passType = "password" ∧ s.toggleLabel = "👁") ∨
        (s.passType = "text" ∧ s.toggleLabel = "🙈") →
      togglePassClick (togglePassClick s) = s) := by
  constructor
  · rintro ⟨pt, lb⟩ (h | h) <;> subst h <;>
      refine ⟨?_, ?_, ?_⟩ <;> simp [togglePassClick]
  · rintro ⟨pt, lb⟩ (⟨h1, h2⟩ | ⟨h1, h2⟩) <;> subst h1 <;> subst h2 <;> rfl

/-- Witness for the amended C10 at a canonical state. -/
theorem togglePassAmendedWitness :
    togglePassClick (togglePassClick ⟨"password", "👁"⟩) =
      (⟨"password", "👁"⟩ : ToggleState) :=
  togglePassAmendedSpec.2 ⟨"password", "👁"⟩ (Or.inl ⟨rfl, rfl⟩)
